import Mathlib

/-!
# Verification of the goatcounter background scheduler and session store

A shallow embedding, in Lean 4, of the `cron` background-task scheduler
(`src/cron/cron.go`) and of the salt-rotating session assignment used by the
in-memory hit store (exercised by `TestBackendCountSessions`), together with
theorems settling the specified properties.

Conventions:
* durations and instants are natural numbers of seconds;
* Go functions are embedded as Lean functions; a Go `panic` is an
  `Option String` component of the result (`some msg` = panicked with `msg`);
* goroutine loops are embedded as functions over the finite list of wake-up
  events the environment delivers to them.
-/

namespace Goatcounter

/-! ## The cron package: data model (`src/cron/cron.go`, lines 20-37)

The Go `Task` carries the work function itself; its identity is derived by
runtime reflection (`zruntime.FuncName(t.Fun)`).  The embedding carries the
function's fully qualified name, which is exactly what `FuncName` returns. -/

/-- `Task` from cron.go lines 20-24: description, work function (embedded by
its fully qualified Go name), and the period in seconds. -/
structure Task where
  desc : String
  funName : String
  period : Nat
deriving DecidableEq, Repr

/-- Go `strings.Replace(s, old, new, 1)` on character lists: replace the first
occurrence of `old` (non-overlapping, leftmost) by `new`. -/
def replaceFirstAux (old new : List Char) : List Char → List Char
  | [] => []
  | c :: rest =>
    if old.isPrefixOf (c :: rest) then new ++ (c :: rest).drop old.length
    else c :: replaceFirstAux old new rest

/-- Go `strings.Replace(s, old, new, 1)` on strings. -/
def goReplaceFirst (s old new : String) : String :=
  ⟨replaceFirstAux old.toList new.toList s.toList⟩

/-- Package prefix stripped by `Task.ID` (cron.go line 27). -/
def cronPrefix : String := "zgo.at/goatcounter/v2/cron."

/-- `Task.ID()` from cron.go lines 26-28:
`strings.Replace(zruntime.FuncName(t.Fun), "zgo.at/goatcounter/v2/cron.", "", 1)`. -/
def taskID (t : Task) : String := goReplaceFirst t.funName cronPrefix ""

/-- Qualified name of the `PersistAndStat` work function used by the persist
task registered in `PersistInterval` (cron.go line 51). -/
def persistAndStatName : String := "zgo.at/goatcounter/v2/cron.PersistAndStat"

/-- The static task list `Tasks` from cron.go lines 30-37 (periods in seconds). -/
def cronTasks : List Task :=
  [ ⟨"vacuum pageviews (data retention)", "zgo.at/goatcounter/v2/cron.DataRetention", 3600⟩,
    ⟨"renew ACME certs", "zgo.at/goatcounter/v2/cron.renewACME", 7200⟩,
    ⟨"vacuum soft-deleted sites", "zgo.at/goatcounter/v2/cron.vacuumDeleted", 43200⟩,
    ⟨"rm old exports", "zgo.at/goatcounter/v2/cron.oldExports", 3600⟩,
    ⟨"cycle sessions", "zgo.at/goatcounter/v2/cron.sessions", 60⟩,
    ⟨"send email reports", "zgo.at/goatcounter/v2/cron.EmailReports", 3600⟩ ]

/-- The task appended by `PersistInterval d` (cron.go lines 49-53). -/
def persistTask (d : Nat) : Task := ⟨"persist hits", persistAndStatName, d⟩

/-! ## Scheduler lifecycle state (cron.go lines 39-100)

The package-level state is the `started` flag (an atomic int used as a
boolean), the mutable `Tasks` slice, and — for the embedding — the list of
loop goroutines that `RunBackground` has launched so far, recorded by an
identifying label.  (`stopped` is read inside the loops and is part of the
loop models below, not of this startup-time state.) -/

/-- Package-level scheduler state: the `started` flag, the `Tasks` slice, and
the labels of launched loop goroutines. -/
structure SchedState where
  started : Bool
  tasks : List Task
  loops : List String
deriving DecidableEq, Repr

/-- Label of the dedicated goroutine serving `goatcounter.PersistRunner.Run`
(cron.go lines 64-76). -/
def persistLoopLabel : String := "PersistRunner-channel"

/-- `PersistInterval(d)` from cron.go lines 44-54: panics if `started == 1`,
otherwise appends the "persist hits" task with period `d`.  The second
component is the panic message, if any; on panic the state is unchanged
(the panic fires before the append). -/
def persistInterval (d : Nat) (st : SchedState) : SchedState × Option String :=
  if st.started then (st, some "cron.PersistInterval: cron already started")
  else ({ st with tasks := st.tasks ++ [persistTask d] }, none)

/-- `RunBackground(ctx)` from cron.go lines 57-100: unconditionally sets
`started` to 1 (there is no already-started check), launches the dedicated
PersistRunner channel goroutine, and launches one timer-loop goroutine per
entry of `Tasks`.  It never panics: the panic component is always `none`. -/
def runBackground (st : SchedState) : SchedState × Option String :=
  ({ st with
      started := true
      loops := st.loops ++ persistLoopLabel :: st.tasks.map taskID }, none)

/-! ## Per-task timer loops and the PersistRunner channel loop

Each timer loop (cron.go lines 79-98) runs under `defer zlog.Recover()` and
forever: sleeps for the task's period, returns if `stopped == 1`, and
otherwise submits one wrapped execution.  Go's deferred `recover` catches a
panic that reaches the goroutine, logs it, and the goroutine *returns*: the
loop does not continue after a recovered panic.

The loop is embedded as a function of the finite list of wake-ups the
environment delivers; each wake-up records the value of the `stopped` flag at
that instant and the outcome of the execution submitted during that cycle. -/

/-- Outcome of one submitted task execution, as seen by the loop goroutine. -/
inductive TickOutcome
  | ok
  | errRet
  | panicked
deriving DecidableEq, Repr

/-- One wake-up of a timer loop: the `stopped` flag value read after the
sleep, and the outcome of the cycle's execution if one is submitted. -/
structure WakeCycle where
  stopFlag : Bool
  outcome : TickOutcome
deriving DecidableEq, Repr

/-- The per-task timer loop (cron.go lines 79-98).  Returns the number of
executions submitted and whether a panic was recovered by the deferred
`zlog.Recover()`.  On a wake-up with `stopped == 1` the loop returns without
submitting; a cycle whose execution panics is recovered, logged, and ends the
goroutine — no later wake-up submits anything. -/
def runTimerLoop : List WakeCycle → Nat × Bool
  | [] => (0, false)
  | c :: rest =>
    if c.stopFlag then (0, false)
    else
      match c.outcome with
      | .panicked => (1, true)
      | _ => ((runTimerLoop rest).1 + 1, (runTimerLoop rest).2)

/-- All timer loops run as independent goroutines: the scheduler's behaviour
is the independent product of the loops' behaviours (cron.go lines 78-99). -/
def runAllLoops (loops : List (List WakeCycle)) : List (Nat × Bool) :=
  loops.map runTimerLoop

/-- The dedicated PersistRunner channel loop (cron.go lines 64-76):
`for { <-goatcounter.PersistRunner.Run; bgrun.Run(...) }`.  Its argument is
the value of the `stopped` flag at each received signal; the loop contains no
check of that flag, so it submits one execution per signal unconditionally.
Returns the number of executions submitted. -/
def runPersistLoop : List Bool → Nat
  | [] => 0
  | _ :: rest => runPersistLoop rest + 1

/-! ## The watchdog and the wrapped execution (cron.go lines 67-74, 88-96, 102-114)

`timeout(f, d)` creates an *unbuffered* channel `done` and a goroutine that
selects between a `d`-second timer and a receive on `done`; if the timer fires
first it logs `"cron task f is taking longer than d"` and the goroutine exits.
The wrapper handed to `bgrun.Run` calls `t.Fun(ctx)` (which nothing cancels),
logs a returned error, and then performs the blocking send `done <- struct{}{}`.
The timeline of one wrapped execution is embedded as the ordered list of the
observable events it produces, driven by the duration `work` of the work
function (in seconds) and the error it returns. -/

/-- Observable events of one wrapped task execution. -/
inductive CronEv
  /-- the watchdog logged `"cron task <task> is taking longer than <bound>"` -/
  | warn (task : String) (bound : Nat)
  /-- `l.Error(err)` ran: the execution is treated as failed -/
  | errLog (msg : String)
  /-- `t.Fun(ctx)` returned: the work ran to completion -/
  | funReturned
  /-- the send `done <- struct{}{}` completed and the wrapper returned -/
  | doneSend
  /-- the send `done <- struct{}{}` has no receiver: the wrapper blocks forever -/
  | sendBlocked
deriving DecidableEq, Repr

/-- The watchdog bound used by both submission sites: `10*time.Second`
(cron.go lines 68 and 90). -/
def watchdogSecs : Nat := 10

/-- Timeline of one wrapped execution with watchdog bound `bound`, work
duration `work` and work-function result `errRes`.  If the work finishes
within the bound, the send on `done` pairs with the watchdog's select and the
timer is stopped; if the timer fires first (`bound < work`), the warning is
logged, the watchdog goroutine exits, and the later send on the unbuffered
channel blocks forever. -/
def execTimeline (task : String) (bound work : Nat) (errRes : Option String) :
    List CronEv :=
  if work ≤ bound then
    [CronEv.funReturned] ++
      (match errRes with | some m => [CronEv.errLog m] | none => []) ++
      [CronEv.doneSend]
  else
    [CronEv.warn task bound, CronEv.funReturned] ++
      (match errRes with | some m => [CronEv.errLog m] | none => []) ++
      [CronEv.sendBlocked]

/-- One execution as wrapped at both submission sites of cron.go: the
watchdog bound is the fixed 10 seconds. -/
def cronExec (task : String) (work : Nat) (errRes : Option String) : List CronEv :=
  execTimeline task watchdogSecs work errRes

/-! ## The per-key executor

Both submission sites hand the wrapped execution to `bgrun.Run(key, f)` with
`key = "cron:" + <task identity>`: the PersistRunner channel loop uses the
literal `"cron:PersistAndStat"` (line 67) and every timer loop uses
`"cron:" + t.ID()` (lines 88-89).

The `bgrun` package is part of this repository but its source is not under
`src/`, so the executor itself is modelled from the spec. -/

/-- Submission key used by a task's timer loop (cron.go lines 88-89). -/
def timerKey (t : Task) : String := "cron:" ++ taskID t

/-- Submission key used by the PersistRunner channel loop (cron.go line 67). -/
def persistRunnerKey : String := "cron:PersistAndStat"

/-- Modelled from the spec: the `bgrun` executor (package
`zgo.at/goatcounter/v2/bgrun`, not under `src/`), per §4.4 "a bounded
concurrency-limited executor keyed by the task's identity so that two
invocations of the *same* task never run concurrently".  State: submitted
executions waiting to run, and currently active executions, both by key. -/
structure ExecState where
  pending : List String
  active : List String
deriving DecidableEq, Repr

/-- Modelled from the spec: executor transitions.  A submission enqueues its
key; a pending execution may start only while no execution of the same key is
active; a finished execution leaves the active set. -/
inductive ExecStep : ExecState → ExecState → Prop
  | submit (s : ExecState) (k : String) :
      ExecStep s ⟨k :: s.pending, s.active⟩
  | start (s : ExecState) (k : String) (hp : k ∈ s.pending) (ha : k ∉ s.active) :
      ExecStep s ⟨s.pending.erase k, k :: s.active⟩
  | finish (s : ExecState) (k : String) (ha : k ∈ s.active) :
      ExecStep s ⟨s.pending, s.active.erase k⟩

/-- Initial executor state: nothing submitted, nothing active. -/
def execInit : ExecState := ⟨[], []⟩

/-- Executor states reachable from the initial state. -/
def ExecReaches (s : ExecState) : Prop :=
  Relation.ReflTransGen ExecStep execInit s

/-! ## The salt store and the session assigner

`goatcounter.Memstore` (the `SaltStore`/`SessionAssigner` of the spec) is part
of this repository but its source is not under `src/` — only its test,
`TestBackendCountSessions`, is.  The definitions below are therefore modelled
from the spec (§3 "Salt pair", §4.1 SaltStore, §4.2 SessionAssigner).  Salts
and fingerprints are embedded as natural numbers. -/

/-- Modelled from the spec (§3, missing `Memstore` salt state): the salt pair —
current and previous salt, and the instant of the last rotation. -/
structure SaltState where
  current : Nat
  previous : Nat
  lastRotated : Nat
deriving DecidableEq, Repr

/-- Modelled from the spec (§4.1, missing `Memstore.RefreshSalt`): rotates
current→previous and installs the freshly drawn salt `fresh` iff a full
rotation interval has elapsed since `lastRotated`; otherwise a no-op. -/
def refreshSalt (interval now fresh : Nat) (s : SaltState) : SaltState :=
  if s.lastRotated + interval ≤ now then ⟨fresh, s.current, now⟩ else s

/-- Modelled from the spec (§4.2, missing session hash): the salted session
hash `hash(salt, site, fingerprint)`; `Nat.pair` is an injective stand-in. -/
def sessionHash (salt site fp : Nat) : Nat :=
  Nat.pair salt (Nat.pair site fp)

/-- Modelled from the spec (§4.2, missing recency index entry): last session
id and last-seen time for one (site, fingerprint). -/
structure SessEntry where
  sid : Nat
  lastSeen : Nat
deriving DecidableEq, Repr

/-- Modelled from the spec (§3/§4.2, missing `Memstore` state): the salt pair
plus the in-memory recency index keyed by (site, fingerprint); a prepended
binding shadows earlier ones. -/
structure Memstore where
  salts : SaltState
  index : List ((Nat × Nat) × SessEntry)
deriving DecidableEq, Repr

/-- First binding for a key in the recency index, if any. -/
def lookupFP : List ((Nat × Nat) × SessEntry) → Nat × Nat → Option SessEntry
  | [], _ => none
  | (k, e) :: rest, q => if q = k then some e else lookupFP rest q

/-- Modelled from the spec (§4.2, missing `Assign`):
`Assign(site, fingerprint, now) → (sessionID, isFirstVisit)`.  Look up the
recency index; if an entry exists, was seen within the continuity window, and
hashing with the current or the previous salt still resolves to that entry's
session id, reuse the id with `isFirstVisit = false` and refresh the entry's
last-seen time; otherwise mint a new id from the current-salt hash, record it
with `now`, and set `isFirstVisit = true`. -/
def assign (window : Nat) (st : Memstore) (site fp now : Nat) :
    (Nat × Bool) × Memstore :=
  match lookupFP st.index (site, fp) with
  | some e =>
    if now ≤ e.lastSeen + window ∧
        (sessionHash st.salts.current site fp = e.sid ∨
         sessionHash st.salts.previous site fp = e.sid) then
      ((e.sid, false), { st with index := ((site, fp), ⟨e.sid, now⟩) :: st.index })
    else
      ((sessionHash st.salts.current site fp, true),
        { st with index :=
            ((site, fp), ⟨sessionHash st.salts.current site fp, now⟩) :: st.index })
  | none =>
      ((sessionHash st.salts.current site fp, true),
        { st with index :=
            ((site, fp), ⟨sessionHash st.salts.current site fp, now⟩) :: st.index })

/-- A sequence of hits from one (site, fingerprint) at the given instants,
threaded through the store; returns the (sessionID, isFirstVisit) outputs in
order and the final store. -/
def assignSeq (window site fp : Nat) (st : Memstore) :
    List Nat → List (Nat × Bool) × Memstore
  | [] => ([], st)
  | t :: ts =>
    let r := assign window st site fp t
    let rs := assignSeq window site fp r.2 ts
    (r.1 :: rs.1, rs.2)

/-! # Theorems -/

/-- C10: registering a task after the scheduler has started fails fast by
panicking: whenever `started` is set, `PersistInterval` panics with
"cron.PersistInterval: cron already started" and leaves the state (and so the
task list) unchanged; before start it returns without panic and appends
exactly the one "persist hits" task, whose period is the given `d`. -/
theorem persistInterval_register_contract (d : Nat) (st : SchedState) :
    (st.started = true →
      persistInterval d st = (st, some "cron.PersistInterval: cron already started")) ∧
    (st.started = false →
      (persistInterval d st).2 = none ∧
      (persistInterval d st).1.tasks = st.tasks ++ [persistTask d] ∧
      (persistInterval d st).1.started = st.started ∧
      (persistTask d).period = d) := by
  constructor
  · intro h
    simp [persistInterval, h]
  · intro h
    simp [persistInterval, h, persistTask]

/-- Witness for C10 at concrete started and not-started states. -/
theorem persistInterval_register_contract_witness :
    ((SchedState.mk true cronTasks []).started = true ∧
      persistInterval 60 (SchedState.mk true cronTasks []) =
        (SchedState.mk true cronTasks [],
          some "cron.PersistInterval: cron already started")) ∧
    ((SchedState.mk false cronTasks []).started = false ∧
      (persistInterval 60 (SchedState.mk false cronTasks [])).2 = none ∧
      (persistInterval 60 (SchedState.mk false cronTasks [])).1.tasks =
        cronTasks ++ [persistTask 60] ∧
      (persistInterval 60 (SchedState.mk false cronTasks [])).1.started = false ∧
      (persistTask 60).period = 60) :=
  ⟨⟨rfl, (persistInterval_register_contract 60 (SchedState.mk true cronTasks [])).1 rfl⟩,
   ⟨rfl,
    (persistInterval_register_contract 60 (SchedState.mk false cronTasks [])).2 rfl⟩⟩

/-- C5 counterexample: from an already-started state, `RunBackground` does
*not* panic (the panic component is `none`); it launches a fresh set of seven
loop goroutines (the PersistRunner channel loop plus one per task of the six
static tasks) all the same. -/
theorem runBackground_reinit_no_panic_cex :
    (SchedState.mk true cronTasks []).started = true ∧
    (runBackground (SchedState.mk true cronTasks [])).2 = none ∧
    (runBackground (SchedState.mk true cronTasks [])).1.loops.length = 7 := by
  refine ⟨rfl, rfl, ?_⟩
  decide

/-- C5 as amended: `RunBackground` contains no already-started guard and never
panics; called on any state — an already-started one included — it sets the
`started` flag and launches one more full set of loops, so a second call ends
with two sets of loops launched rather than failing fast. -/
theorem runBackground_never_panics (st : SchedState) :
    (runBackground st).2 = none ∧
    (runBackground st).1.started = true ∧
    (runBackground (runBackground st).1).2 = none ∧
    (runBackground (runBackground st).1).1.loops.length =
      st.loops.length + 2 * (st.tasks.length + 1) := by
  refine ⟨rfl, rfl, rfl, ?_⟩
  simp [runBackground]
  omega

/-- C4 counterexample: a PersistRunner signal received while the stop flag is
already set still submits an execution — the channel loop does not terminate
without submitting, contrary to the claim that every loop polls the stop flag
and stops. -/
theorem persist_loop_ignores_stop_cex :
    runPersistLoop [true] = 1 ∧ runPersistLoop [true] ≠ 0 := by
  decide

/-- C4 as amended: each per-task timer loop polls the stop flag once per
sleep cycle and, once the flag is set, terminates at its next wake-up without
submitting a further execution; the dedicated PersistRunner channel loop,
however, never polls the stop flag and submits one execution for every
received signal, whatever the flag's value. -/
theorem stop_flag_polling (o : TickOutcome) (rest : List WakeCycle)
    (flags : List Bool) :
    runTimerLoop (⟨true, o⟩ :: rest) = (0, false) ∧
    runPersistLoop flags = flags.length := by
  constructor
  · simp [runTimerLoop]
  · induction flags with
    | nil => rfl
    | cons f fs ih => simp [runPersistLoop, ih]

/-- C3 counterexample: on the trace panic-then-tick, the loop submits only the
panicking execution — had the loop resumed and run the task at its next
scheduled tick, two executions would have been submitted. -/
theorem panic_loop_resume_cex :
    (runTimerLoop [⟨false, TickOutcome.panicked⟩, ⟨false, TickOutcome.ok⟩]).1 = 1 ∧
    (runTimerLoop [⟨false, TickOutcome.panicked⟩, ⟨false, TickOutcome.ok⟩]).1 ≠ 2 := by
  decide

/-- C3 as amended: a panic reaching a task's loop is caught by the loop's
deferred `zlog.Recover()` and logged, and a sibling loop's behaviour is
unaffected by it — but the recovering goroutine returns, so the panicking
task's loop does not resume: whatever wake-ups follow the panic, no further
execution of that task is submitted. -/
theorem panic_recovered_loop_exits (pre rest sibling : List WakeCycle)
    (hpre : ∀ c ∈ pre, c.stopFlag = false ∧ c.outcome ≠ TickOutcome.panicked) :
    runTimerLoop (pre ++ ⟨false, TickOutcome.panicked⟩ :: rest) =
      (pre.length + 1, true) ∧
    runAllLoops [pre ++ ⟨false, TickOutcome.panicked⟩ :: rest, sibling] =
      [(pre.length + 1, true), runTimerLoop sibling] := by
  have main : runTimerLoop (pre ++ ⟨false, TickOutcome.panicked⟩ :: rest) =
      (pre.length + 1, true) := by
    induction pre with
    | nil => simp [runTimerLoop]
    | cons c cs ih =>
      obtain ⟨hs, ho⟩ := hpre c (by simp)
      have ih' := ih fun c hc => hpre c (List.mem_cons_of_mem _ hc)
      cases hoc : c.outcome with
      | panicked => exact absurd hoc ho
      | ok =>
        simp [runTimerLoop, hs, hoc, ih']
      | errRet =>
        simp [runTimerLoop, hs, hoc, ih']
  exact ⟨main, by simp [runAllLoops, main]⟩

/-- Witness for C3's amended theorem at a concrete trace. -/
theorem panic_recovered_loop_exits_witness :
    (∀ c ∈ [WakeCycle.mk false TickOutcome.ok],
        c.stopFlag = false ∧ c.outcome ≠ TickOutcome.panicked) ∧
    runTimerLoop ([WakeCycle.mk false TickOutcome.ok] ++
        ⟨false, TickOutcome.panicked⟩ :: [WakeCycle.mk false TickOutcome.errRet]) =
      (2, true) ∧
    runAllLoops [[WakeCycle.mk false TickOutcome.ok] ++
        ⟨false, TickOutcome.panicked⟩ :: [WakeCycle.mk false TickOutcome.errRet],
        [WakeCycle.mk false TickOutcome.ok]] =
      [(2, true), runTimerLoop [WakeCycle.mk false TickOutcome.ok]] :=
  ⟨by decide,
   (panic_recovered_loop_exits [WakeCycle.mk false TickOutcome.ok]
      [WakeCycle.mk false TickOutcome.errRet] [WakeCycle.mk false TickOutcome.ok]
      (by decide)).1,
   (panic_recovered_loop_exits [WakeCycle.mk false TickOutcome.ok]
      [WakeCycle.mk false TickOutcome.errRet] [WakeCycle.mk false TickOutcome.ok]
      (by decide)).2⟩

/-- C8: every wrapped execution carries the fixed 10-second soft timeout; when
the work is still running as the bound elapses, the watchdog logs a warning
naming the task and the elapsed bound, the work function still runs to
completion, and the execution is treated as failed exactly when the work
function itself returns an error. -/
theorem watchdog_soft_timeout (task : String) (work : Nat) (errRes : Option String)
    (hover : watchdogSecs < work) :
    watchdogSecs = 10 ∧
    CronEv.warn task watchdogSecs ∈ cronExec task work errRes ∧
    CronEv.funReturned ∈ cronExec task work errRes ∧
    (∀ m, CronEv.errLog m ∈ cronExec task work errRes ↔ errRes = some m) := by
  have h : ¬ work ≤ watchdogSecs := Nat.not_le.mpr hover
  refine ⟨rfl, ?_⟩
  unfold cronExec execTimeline
  rw [if_neg h]
  cases errRes <;> simp [eq_comm]

/-- Witness for C8 at an 11-second execution of the persist task. -/
theorem watchdog_soft_timeout_witness :
    watchdogSecs < 11 ∧
    CronEv.warn "PersistAndStat" watchdogSecs ∈ cronExec "PersistAndStat" 11 none ∧
    CronEv.funReturned ∈ cronExec "PersistAndStat" 11 none :=
  ⟨by decide,
   (watchdog_soft_timeout "PersistAndStat" 11 none (by decide)).2.1,
   (watchdog_soft_timeout "PersistAndStat" 11 none (by decide)).2.2.1⟩

/-- C9: when the work outlasts the 10-second watchdog, the watchdog goroutine
has already exited after its timer fired, so the completion send on the
unbuffered `done` channel never completes: the wrapper blocks forever and
never returns to the executor. -/
theorem overrun_send_blocks_forever (task : String) (work : Nat)
    (errRes : Option String) (hover : watchdogSecs < work) :
    CronEv.doneSend ∉ cronExec task work errRes ∧
    CronEv.sendBlocked ∈ cronExec task work errRes := by
  have h : ¬ work ≤ watchdogSecs := Nat.not_le.mpr hover
  unfold cronExec execTimeline
  rw [if_neg h]
  cases errRes <;> simp

/-- Witness for C9 at a 12-second execution that also returns an error. -/
theorem overrun_send_blocks_forever_witness :
    watchdogSecs < 12 ∧
    CronEv.doneSend ∉ cronExec "sessions" 12 (some "boom") ∧
    CronEv.sendBlocked ∈ cronExec "sessions" 12 (some "boom") :=
  ⟨by decide,
   (overrun_send_blocks_forever "sessions" 12 (some "boom") (by decide)).1,
   (overrun_send_blocks_forever "sessions" 12 (some "boom") (by decide)).2⟩

/-- Helper: `RefreshSalt` is a no-op while less than one rotation interval has
elapsed since the last rotation. -/
theorem refreshSalt_noop (interval now fresh : Nat) (s : SaltState)
    (h : now < s.lastRotated + interval) :
    refreshSalt interval now fresh s = s := by
  simp [refreshSalt, Nat.not_le.mpr h]

/-- C6: `RefreshSalt` changes the salt state iff a full rotation interval has
elapsed since `lastRotated`, in which case current rotates to previous, the
fresh draw becomes current, and `lastRotated` is set to `now`; a further call
less than one interval after the resulting state's `lastRotated` is a no-op
leaving the (current, previous) pair unchanged. -/
theorem refreshSalt_rotates_iff_elapsed (interval now fresh now2 fresh2 : Nat)
    (s : SaltState) (hpos : 0 < interval) :
    (refreshSalt interval now fresh s ≠ s ↔ s.lastRotated + interval ≤ now) ∧
    (s.lastRotated + interval ≤ now →
      refreshSalt interval now fresh s = ⟨fresh, s.current, now⟩) ∧
    (now < s.lastRotated + interval → refreshSalt interval now fresh s = s) ∧
    (now2 < (refreshSalt interval now fresh s).lastRotated + interval →
      refreshSalt interval now2 fresh2 (refreshSalt interval now fresh s) =
        refreshSalt interval now fresh s) := by
  refine ⟨?_, ?_, ?_, ?_⟩
  · constructor
    · intro hne
      by_contra hlt
      exact hne (by simp [refreshSalt, hlt])
    · intro hle heq
      have : s.lastRotated < now := by omega
      have hlast : (refreshSalt interval now fresh s).lastRotated = now := by
        simp [refreshSalt, hle]
      rw [heq] at hlast
      omega
  · intro hle
    simp [refreshSalt, hle]
  · intro hlt
    exact refreshSalt_noop interval now fresh s hlt
  · intro h2
    exact refreshSalt_noop interval now2 fresh2 (refreshSalt interval now fresh s) h2

/-- Witness for C6: a rotation exactly at the 12-hour interval, followed by a
no-op refresh half an hour later. -/
theorem refreshSalt_rotates_iff_elapsed_witness :
    0 < 43200 ∧
    (43200 : Nat) ≥ (SaltState.mk 5 7 0).lastRotated + 43200 ∧
    refreshSalt 43200 43200 9 (SaltState.mk 5 7 0) = SaltState.mk 9 5 43200 ∧
    ((45000 : Nat) < (refreshSalt 43200 43200 9 (SaltState.mk 5 7 0)).lastRotated + 43200 ∧
      refreshSalt 43200 45000 11 (refreshSalt 43200 43200 9 (SaltState.mk 5 7 0)) =
        refreshSalt 43200 43200 9 (SaltState.mk 5 7 0)) :=
  ⟨by decide, by decide,
   (refreshSalt_rotates_iff_elapsed 43200 43200 9 45000 11 (SaltState.mk 5 7 0)
      (by decide)).2.1 (by decide),
   by decide,
   (refreshSalt_rotates_iff_elapsed 43200 43200 9 45000 11 (SaltState.mk 5 7 0)
      (by decide)).2.2.2 (by decide)⟩

/-- Helper: a run of hits whose recency entry currently carries the
current-salt hash as its session id, with consecutive gaps within the
continuity window, keeps reusing that session id with `isFirstVisit = false`. -/
theorem assignSeq_reuse (window site fp : Nat) (st : Memstore) (tprev : Nat)
    (ts : List Nat)
    (hlook : lookupFP st.index (site, fp) =
      some ⟨sessionHash st.salts.current site fp, tprev⟩)
    (hchain : List.Chain (fun a b => a ≤ b ∧ b ≤ a + window) tprev ts) :
    (assignSeq window site fp st ts).1 =
      ts.map fun _ => (sessionHash st.salts.current site fp, false) := by
  induction ts generalizing st tprev with
  | nil => rfl
  | cons t ts ih =>
    rw [List.chain_cons] at hchain
    obtain ⟨⟨_, hwin⟩, hrest⟩ := hchain
    have hassign : assign window st site fp t =
        ((sessionHash st.salts.current site fp, false),
          ⟨st.salts,
            ((site, fp), ⟨sessionHash st.salts.current site fp, t⟩) :: st.index⟩) := by
      simp [assign, hlook, hwin]
    have htail := ih
      ⟨st.salts, ((site, fp), ⟨sessionHash st.salts.current site fp, t⟩) :: st.index⟩
      t (by simp [lookupFP]) hrest
    simp only [assignSeq, hassign, List.map_cons]
    exact congrArg _ htail

/-- C2: a sequence of hits from one (site, fingerprint) — previously unknown
to the recency index — whose instants stay within the continuity window, with
no intervening salt rotation, all receive the same session id (the
current-salt hash), and only the first hit gets `isFirstVisit = true`. -/
theorem session_continuity (window site fp : Nat) (st : Memstore) (t0 : Nat)
    (ts : List Nat)
    (h0 : lookupFP st.index (site, fp) = none)
    (hchain : List.Chain (fun a b => a ≤ b ∧ b ≤ a + window) t0 ts) :
    (assignSeq window site fp st (t0 :: ts)).1 =
      (sessionHash st.salts.current site fp, true) ::
        ts.map fun _ => (sessionHash st.salts.current site fp, false) := by
  have hassign : assign window st site fp t0 =
      ((sessionHash st.salts.current site fp, true),
        ⟨st.salts,
          ((site, fp), ⟨sessionHash st.salts.current site fp, t0⟩) :: st.index⟩) := by
    simp [assign, h0]
  have htail := assignSeq_reuse window site fp
    ⟨st.salts, ((site, fp), ⟨sessionHash st.salts.current site fp, t0⟩) :: st.index⟩
    t0 ts (by simp [lookupFP]) hchain
  simp only [assignSeq, hassign, List.map_cons]
  exact congrArg _ htail

/-- Witness for C2: three hits at 100 s, 200 s and 300 s inside a 1800 s
window share one session id and only the first is a first visit. -/
theorem session_continuity_witness :
    lookupFP (Memstore.mk ⟨3, 4, 0⟩ []).index (1, 2) = none ∧
    List.Chain (fun a b => a ≤ b ∧ b ≤ a + 1800) 100 [200, 300] ∧
    (assignSeq 1800 1 2 (Memstore.mk ⟨3, 4, 0⟩ []) [100, 200, 300]).1 =
      (sessionHash (Memstore.mk ⟨3, 4, 0⟩ []).salts.current 1 2, true) ::
        [200, 300].map
          (fun _ => (sessionHash (Memstore.mk ⟨3, 4, 0⟩ []).salts.current 1 2, false)) :=
  ⟨rfl, by simp [List.chain_cons],
   session_continuity 1800 1 2 (Memstore.mk ⟨3, 4, 0⟩ []) 100 [200, 300] rfl
     (by simp [List.chain_cons])⟩

/-- C7: a session opened before a successful salt rotation is not fragmented
by it: a subsequent hit from the same (site, fingerprint) within the
continuity window is assigned the very session id minted before the rotation
(the pre-rotation current-salt hash), with `isFirstVisit = false`, because the
previous salt is still honored for matching. -/
theorem rotation_non_fragmentation (window interval site fp t0 tr fresh t1 : Nat)
    (st : Memstore)
    (h0 : lookupFP st.index (site, fp) = none)
    (hrot : st.salts.lastRotated + interval ≤ tr)
    (_hord : t0 ≤ t1) (hwin : t1 ≤ t0 + window) :
    (assign window
        ⟨refreshSalt interval tr fresh (assign window st site fp t0).2.salts,
          (assign window st site fp t0).2.index⟩
        site fp t1).1 =
      ((assign window st site fp t0).1.1, false) ∧
    (assign window st site fp t0).1.1 = sessionHash st.salts.current site fp := by
  have hassign : assign window st site fp t0 =
      ((sessionHash st.salts.current site fp, true),
        ⟨st.salts,
          ((site, fp), ⟨sessionHash st.salts.current site fp, t0⟩) :: st.index⟩) := by
    simp [assign, h0]
  have hsalts : refreshSalt interval tr fresh st.salts =
      ⟨fresh, st.salts.current, tr⟩ := by
    simp [refreshSalt, hrot]
  rw [hassign]
  refine ⟨?_, rfl⟩
  simp only [hsalts]
  simp [assign, lookupFP, hwin]

/-- Witness for C7: a hit at 100 s, a rotation at 43200 s, and a second hit at
1200 s of the same 1800 s window still lands in the first hit's session. -/
theorem rotation_non_fragmentation_witness :
    lookupFP (Memstore.mk ⟨3, 4, 0⟩ []).index (1, 2) = none ∧
    (Memstore.mk ⟨3, 4, 0⟩ []).salts.lastRotated + 43200 ≤ 43200 ∧
    (100 : Nat) ≤ 1200 ∧ (1200 : Nat) ≤ 100 + 1800 ∧
    (assign 1800
        ⟨refreshSalt 43200 43200 9
            (assign 1800 (Memstore.mk ⟨3, 4, 0⟩ []) 1 2 100).2.salts,
          (assign 1800 (Memstore.mk ⟨3, 4, 0⟩ []) 1 2 100).2.index⟩
        1 2 1200).1 =
      ((assign 1800 (Memstore.mk ⟨3, 4, 0⟩ []) 1 2 100).1.1, false) :=
  ⟨rfl, by decide, by decide, by decide,
   (rotation_non_fragmentation 1800 43200 1 2 100 43200 9 1200
      (Memstore.mk ⟨3, 4, 0⟩ []) rfl (by decide) (by decide) (by decide)).1⟩

/-- Helper: each executor transition preserves "at most one active execution
per key". -/
theorem execStep_preserves (s s' : ExecState) (h : ExecStep s s')
    (hinv : ∀ k, s.active.count k ≤ 1) : ∀ k, s'.active.count k ≤ 1 := by
  cases h with
  | submit k => exact hinv
  | start k hp ha =>
    intro k'
    by_cases hk : k' = k
    · subst hk
      have hz : s.active.count k' = 0 := List.count_eq_zero.mpr ha
      simp [List.count_cons_self, hz]
    · rw [List.count_cons_of_ne hk]
      exact hinv k'
  | finish k ha =>
    intro k'
    exact le_trans (List.Sublist.count_le (List.erase_sublist k s.active) k') (hinv k')

/-- C1: in every reachable state of the per-key executor, at most one
execution of any key is active at once; and the timer-loop submission key of
the persist task coincides with the key used by the PersistRunner channel
loop, so the timer tick and the manual signal funnel into the same key and
thus never overlap. -/
theorem persist_triggers_serialized :
    (∀ s, ExecReaches s → ∀ k, s.active.count k ≤ 1) ∧
    (∀ d, timerKey (persistTask d) = persistRunnerKey) := by
  constructor
  · intro s hs
    induction hs with
    | refl => intro k; simp [execInit]
    | tail _ hstep ih => exact execStep_preserves _ _ hstep ih
  · intro d
    rfl

/-- Witness for C1: a state reached by submitting and starting one persist
execution has exactly one active execution under the shared key. -/
theorem persist_triggers_serialized_witness :
    ExecReaches (ExecState.mk [] [persistRunnerKey]) ∧
    (ExecState.mk [] [persistRunnerKey]).active.count persistRunnerKey ≤ 1 ∧
    timerKey (persistTask 10) = persistRunnerKey := by
  have h1 : ExecStep execInit ⟨[persistRunnerKey], []⟩ :=
    ExecStep.submit execInit persistRunnerKey
  have h2 : ExecStep ⟨[persistRunnerKey], []⟩ ⟨[], [persistRunnerKey]⟩ := by
    have := ExecStep.start ⟨[persistRunnerKey], []⟩ persistRunnerKey
      (by simp) (by simp)
    simpa using this
  have hreach : ExecReaches (ExecState.mk [] [persistRunnerKey]) :=
    Relation.ReflTransGen.tail (Relation.ReflTransGen.tail .refl h1) h2
  exact ⟨hreach,
    persist_triggers_serialized.1 (ExecState.mk [] [persistRunnerKey]) hreach
      persistRunnerKey,
    persist_triggers_serialized.2 10⟩

end Goatcounter
